import Mathlib

/-
Verification of the GPIO register-map and pin-lifecycle core of the
`mygpio` crate (src/gpio/mem.rs, src/gpio/pin.rs, src/gpio.rs).

The register accessor `GpioMem` is embedded as a pure state machine: the
mapped register window becomes a word-indexed memory `Nat → Nat` (each
cell a 32-bit word, kept below 2^32), and every volatile access performed
by an operation is additionally recorded in an access trace, so that
claims about the *shape* of the accesses (single write, no prior read,
which word is touched) are provable, not just claims about the resulting
values.

Pieces of the crate that only exist as declarations or documentation in
the source (the pin-claim registry behind `Gpio::get`, the `level()`
reader, and the hardware behaviour of the GPSET/GPCLR/GPLEV banks) are
modelled from the specification; each such definition carries a doc
comment starting with "Modelled from the spec:".
-/

set_option linter.unusedVariables false

set_option linter.unnecessarySeqFocus false

/-- Pin modes, from `src/gpio.rs` (`#[repr(u8)] pub enum Mode`). -/
inductive Mode
  | Input
  | Output
  | Alt0
  | Alt1
  | Alt2
  | Alt3
  | Alt4
  | Alt5
deriving DecidableEq, Repr, Fintype

/-- The discriminant of each `Mode` variant, from the explicit values in
`src/gpio.rs` (`Input = 0b000, Output = 0b001, Alt0 = 0b100, Alt1 = 0b101,
Alt2 = 0b110, Alt3 = 0b111, Alt4 = 0b011, Alt5 = 0b010`); this is what the
cast `mode as u32` in `GpioMem::set_mode` produces. -/
def Mode.toBits : Mode → Nat
  | .Input => 0b000
  | .Output => 0b001
  | .Alt0 => 0b100
  | .Alt1 => 0b101
  | .Alt2 => 0b110
  | .Alt3 => 0b111
  | .Alt4 => 0b011
  | .Alt5 => 0b010

/-- The inverse direction: `GpioMem::mode` (src/gpio/mem.rs line 89)
reinterprets a masked 3-bit value as a `Mode` via `std::mem::transmute`,
i.e. it selects the variant whose `#[repr(u8)]` discriminant equals the
value. The function is only ever applied to values `< 8` (the argument is
masked with `0b111`); the final catch-all arm is unreachable there. -/
def Mode.ofBits : Nat → Mode
  | 0 => .Input
  | 1 => .Output
  | 2 => .Alt5
  | 3 => .Alt4
  | 4 => .Alt0
  | 5 => .Alt1
  | 6 => .Alt2
  | 7 => .Alt3
  | _ => .Input

/-- Pin logic levels, from `src/gpio.rs`. -/
inductive Level
  | Low
  | High
deriving DecidableEq, Repr

/-- Kind of a low-level `std::io::Error`, reduced to what the claims
need: whether it is a permission failure or some other I/O failure. -/
inductive IoErrorKind
  | permissionDenied
  | notFound
  | other
deriving DecidableEq, Repr

/-- The crate's error type, from `src/gpio.rs` (`pub enum Error`). -/
inductive GpioError
  | unknownModel
  | pinNotAvailable (pin : Nat)
  | permissionDenied (path : String)
  | ioError (kind : IoErrorKind)
  | threadPanic
deriving DecidableEq, Repr

/-- Whether a `GpioError` is the dedicated `Error::PermissionDenied`
variant (as opposed to a permission failure wrapped inside `Error::Io`). -/
def GpioError.isPermissionDeniedVariant : GpioError → Bool
  | .permissionDenied _ => true
  | _ => false

/-- Identified SoC, from `src/system.rs`. -/
inductive SoC
  | Bcm2711
deriving DecidableEq, Repr

-- Register-bank constants, from `src/gpio/mem.rs` lines 35-44.
def GPIO_MEM_REGISTERS : Nat := 58

def GPIO_MEM_SIZE : Nat := GPIO_MEM_REGISTERS * 4

def GPFSEL0 : Nat := 0x00

def GPSET0 : Nat := 0x1c / 4

def GPCLR0 : Nat := 0x28 / 4

def GPLEV0 : Nat := 0x34 / 4

/-- Maximum GPIO pin count, from `src/gpio/pin.rs` (`pub const MAX: usize = 54`). -/
def MAX : Nat := 54

/-- One volatile access to the mapped register window: `GpioMem::read`
(`ptr::read_volatile`) or `GpioMem::write` (`ptr::write_volatile`), with
the word offset and, for writes, the written word. -/
inductive MemAccess
  | read (offset : Nat)
  | write (offset : Nat) (value : Nat)
deriving DecidableEq, Repr

/-- The word offset touched by an access. -/
def MemAccess.offset : MemAccess → Nat
  | .read o => o
  | .write o _ => o

/-- State of the embedded register accessor: the content of the mapped
window as word-indexed memory (each cell a 32-bit word), together with
the trace of volatile accesses performed so far. -/
structure GpioState where
  mem : Nat → Nat
  trace : List MemAccess

/-- A fresh state over a given memory content (words truncated to u32),
with an empty access trace. -/
def GpioState.initial (mem : Nat → Nat) : GpioState :=
  { mem := fun i => mem i % 2 ^ 32, trace := [] }

/-- `GpioMem::read` (src/gpio/mem.rs lines 148-151): volatile read of the
register word at `offset`; returns the word and records the access. -/
def GpioMem.read (s : GpioState) (offset : Nat) : Nat × GpioState :=
  (s.mem offset, { s with trace := s.trace ++ [MemAccess.read offset] })

/-- `GpioMem::write` (src/gpio/mem.rs lines 153-158): volatile write of a
32-bit word at `offset`; records the access. -/
def GpioMem.write (s : GpioState) (offset value : Nat) : GpioState :=
  { mem := fun i => if i = offset then value % 2 ^ 32 else s.mem i,
    trace := s.trace ++ [MemAccess.write offset value] }

/-- Bitwise complement on u32, the Rust `!` operator at type `u32`. -/
def u32Not (x : Nat) : Nat := 0xFFFFFFFF ^^^ x

/-- `GpioMem::mode` (src/gpio/mem.rs lines 83-91), transcribed exactly:
`offset = pin / 10` is computed but NOT used — the function reads register
word 0 (`self.read(0)`) for every pin — then shifts by `(pin % 10) * 3`,
truncates to `u8`, masks the low 3 bits and transmutes into a `Mode`. -/
def GpioMem.mode (s : GpioState) (pin : Nat) : Mode × GpioState :=
  let offset := pin / 10
  let r := GpioMem.read s 0
  let reg_value := r.fst
  let shift := (pin % 10) * 3
  (Mode.ofBits ((reg_value >>> shift) % 2 ^ 8 &&& 0b111), r.snd)

/-- `GpioMem::set_mode` (src/gpio/mem.rs lines 93-102), transcribed
exactly: it reads register word 0 (`self.read(0)`) but writes register
word `pin / 10`, storing the read value with the pin's 3-bit field
cleared and the new mode's encoding OR-ed in at `(pin % 10) * 3`. -/
def GpioMem.set_mode (s : GpioState) (pin : Nat) (mode : Mode) : GpioState :=
  let offset := pin / 10
  let r := GpioMem.read s 0
  let reg_value := r.fst
  let shift := (pin % 10) * 3
  GpioMem.write r.snd offset
    ((reg_value &&& u32Not (0b111 <<< shift)) ||| (Mode.toBits mode <<< shift))

/-- `GpioMem::set_low` (src/gpio/mem.rs lines 107-112): a single direct
write of `1 << (pin % 32)` to clear-bank word `GPCLR0 + pin / 32`. -/
def GpioMem.set_low (s : GpioState) (pin : Nat) : GpioState :=
  let offset := GPCLR0 + pin / 32
  let shift := pin % 32
  let value := 1 <<< shift
  GpioMem.write s offset value

/-- `GpioMem::set_high` (src/gpio/mem.rs lines 117-121): a single direct
write of `1 << (pin % 32)` to set-bank word `GPSET0 + pin / 32`. -/
def GpioMem.set_high (s : GpioState) (pin : Nat) : GpioState :=
  let offset := GPSET0 + pin / 32
  let shift := pin % 32
  GpioMem.write s offset (1 <<< shift)

/-- The specification's reading of a pin's function-select field,
following the spec's words (§4.1): "the field for pin `p` lives in
function-select word `p / 10` at bit offset `(p % 10) * 3`"; it is stated
here independently of the source so the source's `GpioMem::mode` can be
compared against it. -/
def specFselMode (mem : Nat → Nat) (pin : Nat) : Mode :=
  Mode.ofBits ((mem (pin / 10) >>> ((pin % 10) * 3)) &&& 0b111)

/-- `OutputPin` (src/gpio/pin.rs lines 216-221): the underlying pin
number, the mode recorded before configuration (`None` when the pin was
already in Output mode) and the `reset_on_drop` flag. -/
structure OutputPin where
  pin : Nat
  prev_mode : Option Mode
  reset_on_drop : Bool
deriving DecidableEq, Repr

/-- `OutputPin::new` (src/gpio/pin.rs lines 224-239): read the pin's
current mode through `Pin::mode` (which delegates to `GpioMem::mode`); if
it is already `Output`, record no previous mode and issue no write;
otherwise call `set_mode(pin, Output)` and record the read mode.
`reset_on_drop` starts out `true`. -/
def OutputPin.new (s : GpioState) (pin : Nat) : OutputPin × GpioState :=
  let r := GpioMem.mode s pin
  let prev_mode := r.fst
  if prev_mode = Mode.Output then
    ({ pin := pin, prev_mode := none, reset_on_drop := true }, r.snd)
  else
    ({ pin := pin, prev_mode := some prev_mode, reset_on_drop := true },
      GpioMem.set_mode r.snd pin Mode.Output)

/-- `impl Drop for OutputPin` via `impl_drop!` (src/gpio/pin.rs lines
68-85): if `reset_on_drop` is false, return immediately; otherwise, if a
previous mode was recorded, write it back with `set_mode`. -/
def OutputPin.drop (op : OutputPin) (s : GpioState) : GpioState :=
  if !op.reset_on_drop then s
  else
    match op.prev_mode with
    | some prev_mode => GpioMem.set_mode s op.pin prev_mode
    | none => s

/-- Modelled from the spec: the process-wide pin-claim registry. The
source only declares `Error::PinNotAvailable` and documents that `Pin`s
"are constructed by retrieving them using `Gpio::get`", but the `Gpio`
registry itself is absent from src/; §4.2 of the spec defines
`claim(pin_number, registry)` as failing when the pin is already claimed
or out of range (`pin >= MAX`), and otherwise marking the pin claimed. -/
structure Gpio where
  claimed : Nat → Bool

/-- Modelled from the spec: claiming a pin from the registry. Fails with
`PinNotAvailable` if the pin number is out of range or the pin is already
claimed; on success returns the pin handle (its number) and the registry
with the pin marked claimed. -/
def Gpio.claim (g : Gpio) (pin : Nat) : Except GpioError (Nat × Gpio) :=
  if MAX ≤ pin then Except.error (GpioError.pinNotAvailable pin)
  else if g.claimed pin then Except.error (GpioError.pinNotAvailable pin)
  else Except.ok (pin, { claimed := fun q => if q = pin then true else g.claimed q })

/-- Modelled from the spec: releasing a pin claim marks the pin free
again in the registry. -/
def Gpio.release (g : Gpio) (pin : Nat) : Gpio :=
  { claimed := fun q => if q = pin then false else g.claimed q }

/-- Modelled from the spec: the full release of an `OutputPin` handle —
run the drop logic (mode restore, governed by `reset_on_drop`), then
release the pin claim regardless of the flag. The claim-release half is
absent from src/ (there is no registry); the drop half is the source's
`impl_drop!`. -/
def OutputPin.release (op : OutputPin) (s : GpioState) (g : Gpio) : GpioState × Gpio :=
  (OutputPin.drop op s, Gpio.release g op.pin)

/-- Modelled from the spec: the hardware state behind the mapped window —
the function-select words (plain storage) and one logic level per pin.
The spec (§4.1, glossary) describes the GPSET/GPCLR words as set/clear
banks where "writing a single bit affects only the corresponding pin,
independent of other bits' values", and GPLEV as the level bank. -/
structure Device where
  fselWords : Nat → Nat
  levels : Nat → Bool

/-- Modelled from the spec: the hardware effect of writing one register
word. Function-select words (offsets 0-5) store the value; a write to a
set-bank word (GPSET0..GPSET0+1) drives every pin whose bit is 1 high; a
write to a clear-bank word (GPCLR0..GPCLR0+1) drives every pin whose bit
is 1 low; bits that are 0 are a no-op; writes elsewhere are ignored. -/
def Device.writeWord (d : Device) (offset value : Nat) : Device :=
  if offset < 6 then
    { d with fselWords := fun i => if i = offset then value % 2 ^ 32 else d.fselWords i }
  else if GPSET0 ≤ offset ∧ offset < GPSET0 + 2 then
    { d with levels := fun p =>
        if p / 32 = offset - GPSET0 ∧ Nat.testBit value (p % 32) then true else d.levels p }
  else if GPCLR0 ≤ offset ∧ offset < GPCLR0 + 2 then
    { d with levels := fun p =>
        if p / 32 = offset - GPCLR0 ∧ Nat.testBit value (p % 32) then false else d.levels p }
  else d

/-- The word with bits `n - 1, ..., 0` given by `f`. -/
def bitsToNat : Nat → (Nat → Bool) → Nat
  | 0, _ => 0
  | n + 1, f => (if f 0 then 1 else 0) + 2 * bitsToNat n (fun i => f (i + 1))

/-- Modelled from the spec: the hardware value of reading one register
word — function-select words return their storage, level-bank words
(GPLEV0..GPLEV0+1) return one bit per pin of the corresponding group of
32 pins. -/
def Device.readWord (d : Device) (offset : Nat) : Nat :=
  if offset < 6 then d.fselWords offset
  else if GPLEV0 ≤ offset ∧ offset < GPLEV0 + 2 then
    bitsToNat 32 (fun b => d.levels ((offset - GPLEV0) * 32 + b))
  else 0

/-- Modelled from the spec: `level(pin)` is absent from src/ (only the
`GPLEV0` constant and the doc comment "can be used to read the pin's mode
and logic level" exist); §4.1 defines it as "reads the level-bank word
`base + p/32`, returns High/Low decoded from bit `p % 32`". -/
def Device.level (d : Device) (pin : Nat) : Level :=
  if Nat.testBit (d.readWord (GPLEV0 + pin / 32)) (pin % 32) then Level.High else Level.Low

/-- Replay a volatile-access trace against the hardware device: reads
leave the device unchanged, writes take effect through `writeWord`. -/
def Device.run (d : Device) : List MemAccess → Device
  | [] => d
  | MemAccess.read _ :: rest => Device.run d rest
  | MemAccess.write o v :: rest => Device.run (d.writeWord o v) rest

/-- `MAP_FAILED`, the address returned by a failed `mmap` call
((void *) -1), as a 64-bit pointer value. -/
def MAP_FAILED_ADDR : Nat := 2 ^ 64 - 1

/-- The operating-system environment `GpioMem::open` interacts with: the
outcome of opening `/dev/gpiomem`, the address `libc::mmap` returns for a
given file descriptor, length and offset (`MAP_FAILED_ADDR` on failure),
and the current `io::Error::last_os_error()` kind. -/
structure OsEnv where
  openDevGpiomem : Except IoErrorKind Nat
  mmapResult : Nat → Nat → Nat → Nat
  lastOsError : IoErrorKind

/-- The result of `GpioMem::open`: the struct `GpioMem` from
src/gpio/mem.rs lines 47-50, holding the pointer returned by the mapping
call and the SoC tag. -/
structure GpioMem where
  mem_ptr : Nat
  soc : SoC
deriving DecidableEq, Repr

/-- `GpioMem::map_devgpiomem` (src/gpio/mem.rs lines 123-147),
transcribed exactly: open `/dev/gpiomem` (a failure propagates through
`?`, which converts the `io::Error` into `Error::Io` via the `From` impl
in src/gpio.rs), then call `mmap` with length `GPIO_MEM_SIZE` and offset
0 and return the resulting address wrapped in `Ok` — the source performs
NO check of the mmap result against `MAP_FAILED`. -/
def GpioMem.map_devgpiomem (env : OsEnv) : Except GpioError Nat :=
  match env.openDevGpiomem with
  | Except.error e => Except.error (GpioError.ioError e)
  | Except.ok fd => Except.ok (env.mmapResult fd GPIO_MEM_SIZE 0)

/-- `GpioMem::open` (src/gpio/mem.rs lines 70-82): on `Ok(mem_ptr)` from
`map_devgpiomem`, build the `GpioMem` value with `SoC::Bcm2711`;
otherwise return `Error::Io(io::Error::last_os_error())`. -/
def GpioMem.open' (env : OsEnv) : Except GpioError GpioMem :=
  match GpioMem.map_devgpiomem env with
  | Except.ok mem_ptr => Except.ok { mem_ptr := mem_ptr, soc := SoC.Bcm2711 }
  | Except.error _ => Except.error (GpioError.ioError env.lastOsError)

theorem Mode.ofBits_toBits (m : Mode) : Mode.ofBits (Mode.toBits m) = m := by
  cases m <;> rfl

theorem Mode.toBits_lt_eight (m : Mode) : Mode.toBits m < 8 := by
  cases m <;> decide

set_option maxRecDepth 4000 in
theorem fsel_rmw_field (r x shift : Nat) (hs : shift ≤ 27) (hx : x < 8) :
    ((((r &&& (0xFFFFFFFF ^^^ (7 <<< shift))) ||| (x <<< shift)) % 2 ^ 32) >>> shift) &&& 7
      = x := by
  have h1 : (0xFFFFFFFF : Nat) = 2 ^ 32 - 1 := by norm_num
  apply Nat.eq_of_testBit_eq
  intro i
  rcases Nat.lt_or_ge i 3 with hi | hi
  · have h7 : Nat.testBit 7 i = true := by interval_cases i <;> decide
    have h32 : shift + i < 32 := by omega
    rw [Nat.testBit_and, Nat.testBit_shiftRight, Nat.testBit_mod_two_pow,
        Nat.testBit_or, Nat.testBit_and, Nat.testBit_xor, h1,
        Nat.testBit_two_pow_sub_one, Nat.testBit_shiftLeft, Nat.testBit_shiftLeft]
    have e1 : shift + i - shift = i := by omega
    have d1 : decide (shift + i < 32) = true := by simpa using h32
    have d2 : decide (shift ≤ shift + i) = true := by simp
    rw [e1, d1, d2, h7]
    cases Nat.testBit r (shift + i) <;> cases Nat.testBit x i <;> rfl
  · have h2i : 8 ≤ 2 ^ i := by
      calc (8 : Nat) = 2 ^ 3 := by norm_num
      _ ≤ 2 ^ i := Nat.pow_le_pow_right (by norm_num) hi
    have h7 : Nat.testBit 7 i = false := Nat.testBit_lt_two_pow (by omega)
    have hxi : Nat.testBit x i = false := Nat.testBit_lt_two_pow (by omega)
    simp [Nat.testBit_and, h7, hxi]

theorem set_mode_field (s : GpioState) (pin : Nat) (m : Mode) :
    specFselMode (GpioMem.set_mode s pin m).mem pin = m := by
  have hs : (pin % 10) * 3 ≤ 27 := by omega
  unfold specFselMode GpioMem.set_mode GpioMem.write GpioMem.read u32Not
  simp only [eq_self_iff_true, if_true]
  rw [show (0b111 : Nat) = 7 from rfl, fsel_rmw_field _ _ _ hs (Mode.toBits_lt_eight m),
      Mode.ofBits_toBits]

theorem bitsToNat_testBit (n : Nat) (f : Nat → Bool) (i : Nat) :
    (bitsToNat n f).testBit i = (decide (i < n) && f i) := by
  induction n generalizing f i with
  | zero => simp [bitsToNat]
  | succ n ih =>
    cases i with
    | zero =>
      rw [bitsToNat, Nat.testBit_zero]
      cases h0 : f 0 <;> simp [h0, Nat.add_mul_mod_self_left]
    | succ i =>
      rw [bitsToNat, Nat.testBit_succ]
      have hdiv : ((if f 0 then 1 else 0) + 2 * bitsToNat n (fun j => f (j + 1))) / 2
          = bitsToNat n (fun j => f (j + 1)) := by
        cases f 0 <;> simp <;> omega
      rw [hdiv, ih]
      simp [Nat.succ_lt_succ_iff]

theorem Device.level_eq (d : Device) (p : Nat) (h : p < 64) :
    d.level p = (if d.levels p then Level.High else Level.Low) := by
  unfold Device.level Device.readWord
  have h6 : ¬ (GPLEV0 + p / 32 < 6) := by simp only [GPLEV0]; omega
  have hin : GPLEV0 ≤ GPLEV0 + p / 32 ∧ GPLEV0 + p / 32 < GPLEV0 + 2 := by
    simp only [GPLEV0]; omega
  rw [if_neg h6, if_pos hin, bitsToNat_testBit]
  have e1 : (GPLEV0 + p / 32 - GPLEV0) * 32 + p % 32 = p := by simp only [GPLEV0]; omega
  have d1 : decide (p % 32 < 32) = true := by simp [Nat.mod_lt]
  rw [e1, d1, Bool.true_and]

theorem Device.writeWord_gpset_levels (d : Device) (pin : Nat) (h : pin < 64) :
    (Device.writeWord d (GPSET0 + pin / 32) (1 <<< (pin % 32))).levels
      = fun q => if q = pin then true else d.levels q := by
  funext q
  have h6 : ¬ (GPSET0 + pin / 32 < 6) := by simp only [GPSET0]; omega
  have hin : GPSET0 ≤ GPSET0 + pin / 32 ∧ GPSET0 + pin / 32 < GPSET0 + 2 := by
    simp only [GPSET0]; omega
  have harg : GPSET0 + pin / 32 - GPSET0 = pin / 32 := by omega
  have hbit : ∀ b : Nat, Nat.testBit (1 <<< (pin % 32)) b = decide (b = pin % 32) := by
    intro b
    rw [Nat.one_shiftLeft, Nat.testBit_two_pow]
    simp [eq_comm]
  unfold Device.writeWord
  rw [if_neg h6, if_pos hin]
  dsimp only
  rw [harg, hbit]
  by_cases hq : q = pin
  · subst hq
    rw [if_pos ⟨rfl, by simp⟩, if_pos rfl]
  · rw [if_neg, if_neg hq]
    rintro ⟨h1, h2⟩
    simp only [decide_eq_true_eq] at h2
    omega

theorem Device.writeWord_gpclr_levels (d : Device) (pin : Nat) (h : pin < 64) :
    (Device.writeWord d (GPCLR0 + pin / 32) (1 <<< (pin % 32))).levels
      = fun q => if q = pin then false else d.levels q := by
  funext q
  have h6 : ¬ (GPCLR0 + pin / 32 < 6) := by simp only [GPCLR0]; omega
  have hset : ¬ (GPSET0 ≤ GPCLR0 + pin / 32 ∧ GPCLR0 + pin / 32 < GPSET0 + 2) := by
    simp only [GPSET0, GPCLR0]; omega
  have hin : GPCLR0 ≤ GPCLR0 + pin / 32 ∧ GPCLR0 + pin / 32 < GPCLR0 + 2 := by
    simp only [GPCLR0]; omega
  have harg : GPCLR0 + pin / 32 - GPCLR0 = pin / 32 := by omega
  have hbit : ∀ b : Nat, Nat.testBit (1 <<< (pin % 32)) b = decide (b = pin % 32) := by
    intro b
    rw [Nat.one_shiftLeft, Nat.testBit_two_pow]
    simp [eq_comm]
  unfold Device.writeWord
  rw [if_neg h6, if_neg hset, if_pos hin]
  dsimp only
  rw [harg, hbit]
  by_cases hq : q = pin
  · subst hq
    rw [if_pos ⟨rfl, by simp⟩, if_pos rfl]
  · rw [if_neg, if_neg hq]
    rintro ⟨h1, h2⟩
    simp only [decide_eq_true_eq] at h2
    omega

/-- C1 (refuted, code bug): `GpioMem::mode` is claimed to read function-select
word `pin / 10`; the source computes that offset but reads word 0 instead. At a
state whose word 1 holds `0b001` (pin 10's field = Output) and whose word 0 is
zero, `mode(10)` performs `read 0` and returns `Input`, while the field decoded
from word `10 / 10 = 1` per the spec is `Output`. -/
theorem mode_reads_word_zero_not_pin_word :
    (GpioMem.mode (GpioState.initial fun i => if i = 1 then 1 else 0) 10).fst = Mode.Input ∧
    (GpioMem.mode (GpioState.initial fun i => if i = 1 then 1 else 0) 10).snd.trace
      = [MemAccess.read 0] ∧
    specFselMode (GpioState.initial fun i => if i = 1 then 1 else 0).mem 10 = Mode.Output := by
  decide

/-- C2 (refuted, code bug): `set_mode` is claimed to be a read-modify-write of
the word containing the pin's field, after which `mode(pin)` returns the new
mode and neighbours in the same word are unchanged. On the all-zero state,
`set_mode(10, Output)` reads word 0 but writes word 1, and `mode(10)` (which
also reads word 0) still returns `Input`; moreover, starting from a state whose
word 0 holds `0b111000` (pin 1 = Alt3), `set_mode(10, Output)` clobbers
neighbour pin 11's field in word 1 from `Input` to `Alt3`. -/
theorem set_mode_reads_word_zero_writes_pin_word :
    (GpioMem.set_mode (GpioState.initial fun _ => 0) 10 Mode.Output).trace
      = [MemAccess.read 0, MemAccess.write 1 1] ∧
    (GpioMem.mode (GpioMem.set_mode (GpioState.initial fun _ => 0) 10 Mode.Output) 10).fst
      = Mode.Input ∧
    specFselMode (GpioState.initial fun i => if i = 0 then 56 else 0).mem 11 = Mode.Input ∧
    specFselMode (GpioMem.set_mode
        (GpioState.initial fun i => if i = 0 then 56 else 0) 10 Mode.Output).mem 11
      = Mode.Alt3 := by
  decide

/-- C3: claiming a pin that is out of range or already claimed fails with
`PinNotAvailable`; a successful claim marks the pin, so a second claim of the
same pin fails while the first handle is live, and succeeds again after the
handle is released. (Registry modelled from the spec; src/ only declares
`Error::PinNotAvailable` and refers to `Gpio::get` in documentation.) -/
theorem claim_exclusive_per_pin (g : Gpio) (pin : Nat)
    (hr : pin < MAX) (hfree : g.claimed pin = false) :
    (∀ q : Nat, MAX ≤ q → Gpio.claim g q = Except.error (GpioError.pinNotAvailable q)) ∧
    ∃ g' : Gpio, Gpio.claim g pin = Except.ok (pin, g') ∧
      Gpio.claim g' pin = Except.error (GpioError.pinNotAvailable pin) ∧
      ∃ g'' : Gpio, Gpio.claim (Gpio.release g' pin) pin = Except.ok (pin, g'') := by
  have hnle : ¬ MAX ≤ pin := by omega
  refine ⟨fun q hq => by simp [Gpio.claim, hq], ?_⟩
  refine ⟨{ claimed := fun q => if q = pin then true else g.claimed q }, ?_, ?_, ?_⟩
  · simp [Gpio.claim, hnle, hfree]
  · simp [Gpio.claim, hnle]
  · refine ⟨{ claimed := fun q => if q = pin then true
        else (Gpio.release { claimed := fun q => if q = pin then true else g.claimed q }
            pin).claimed q }, ?_⟩
    unfold Gpio.claim
    rw [if_neg hnle, if_neg (by simp [Gpio.release])]

/-- Witness for C3 at the empty registry and pin 3. -/
theorem claim_exclusive_per_pin_witness :
    ∃ g' : Gpio, Gpio.claim { claimed := fun _ => false } 3 = Except.ok (3, g') ∧
      Gpio.claim g' 3 = Except.error (GpioError.pinNotAvailable 3) ∧
      ∃ g'' : Gpio, Gpio.claim (Gpio.release g' 3) 3 = Except.ok (3, g'') :=
  (claim_exclusive_per_pin { claimed := fun _ => false } 3 (by decide) rfl).2

/-- C4: the mode encoding round-trips — decoding any variant's 3-bit encoding
returns that variant, every one of the 8 three-bit patterns decodes to a mode
that re-encodes to the same pattern, and the encoding table is exactly the
non-sequential one from the source. -/
theorem mode_encoding_roundtrip :
    (∀ m : Mode, Mode.ofBits (Mode.toBits m) = m) ∧
    (∀ n : Fin 8, Mode.toBits (Mode.ofBits n.val) = n.val) ∧
    Mode.toBits Mode.Input = 0b000 ∧ Mode.toBits Mode.Output = 0b001 ∧
    Mode.toBits Mode.Alt0 = 0b100 ∧ Mode.toBits Mode.Alt1 = 0b101 ∧
    Mode.toBits Mode.Alt2 = 0b110 ∧ Mode.toBits Mode.Alt3 = 0b111 ∧
    Mode.toBits Mode.Alt4 = 0b011 ∧ Mode.toBits Mode.Alt5 = 0b010 := by
  decide

/-- C5: for an in-range pin, `set_high` (resp. `set_low`) performs exactly one
volatile write — no prior read — of the word whose only set bit is `pin % 32`
to set-bank word `GPSET0 + pin/32` (resp. clear-bank word `GPCLR0 + pin/32`),
and on the hardware model of the set/clear banks such a write leaves the level
of every other pin unchanged (zero bits are a no-op). -/
theorem set_high_set_low_single_direct_write (s : GpioState) (pin : Nat) (h : pin < MAX) :
    (GpioMem.set_high s pin).trace
      = s.trace ++ [MemAccess.write (GPSET0 + pin / 32) (1 <<< (pin % 32))] ∧
    (GpioMem.set_low s pin).trace
      = s.trace ++ [MemAccess.write (GPCLR0 + pin / 32) (1 <<< (pin % 32))] ∧
    (∀ b : Nat, Nat.testBit (1 <<< (pin % 32)) b = decide (b = pin % 32)) ∧
    (∀ (d : Device) (q : Nat), q ≠ pin →
      (Device.writeWord d (GPSET0 + pin / 32) (1 <<< (pin % 32))).levels q = d.levels q ∧
      (Device.writeWord d (GPCLR0 + pin / 32) (1 <<< (pin % 32))).levels q = d.levels q) := by
  have h64 : pin < 64 := by simp only [MAX] at h; omega
  refine ⟨rfl, rfl, ?_, ?_⟩
  · intro b
    rw [Nat.one_shiftLeft, Nat.testBit_two_pow]
    simp [eq_comm]
  · intro d q hq
    rw [Device.writeWord_gpset_levels d pin h64, Device.writeWord_gpclr_levels d pin h64]
    simp [hq]

/-- Witness for C5 at pin 27 on a fresh state. -/
theorem set_high_set_low_single_direct_write_witness :
    (GpioMem.set_high (GpioState.initial fun _ => 0) 27).trace
      = [MemAccess.write (GPSET0 + 27 / 32) (1 <<< (27 % 32))] :=
  (set_high_set_low_single_direct_write (GpioState.initial fun _ => 0) 27 (by decide)).1

/-- C6 (refuted, code bug): `OutputPin::new` is claimed to read the pin's
current mode and, when it is not Output, to configure the pin as Output. For
pin 10 on a state whose word 0 holds `0b001` (pin 0's field) and whose word 1
is zero (pin 10's field = Input), the mode read consults word 0 and reports
`Output`, so the constructor records no previous mode and issues no write at
all (the trace holds only the read), leaving pin 10's function-select field at
`Input` while the handle believes the pin is configured as Output. -/
theorem into_output_consults_wrong_word :
    (OutputPin.new (GpioState.initial fun i => if i = 0 then 1 else 0) 10).fst.prev_mode
      = none ∧
    (OutputPin.new (GpioState.initial fun i => if i = 0 then 1 else 0) 10).snd.trace
      = [MemAccess.read 0] ∧
    specFselMode (OutputPin.new (GpioState.initial fun i => if i = 0 then 1 else 0) 10).snd.mem
        10
      = Mode.Input ∧
    (GpioMem.mode (OutputPin.new (GpioState.initial fun i => if i = 0 then 1 else 0) 10).snd
        10).fst
      = Mode.Output := by
  decide

/-- C7: the `reset_on_drop` flag defaults to true; dropping an `OutputPin`
whose conversion recorded a previous mode (`Input` here) writes that mode back,
leaving the pin's function-select field at `Input`; with the flag disabled the
drop performs no write and the field stays at `Output`; and the full release
frees the pin claim in the registry in both cases. -/
theorem output_drop_restores_previous_mode (s : GpioState) (pin : Nat) (g : Gpio)
    (h : (GpioMem.mode s pin).fst = Mode.Input) :
    (OutputPin.new s pin).fst.reset_on_drop = true ∧
    (OutputPin.new s pin).fst.prev_mode = some Mode.Input ∧
    specFselMode (OutputPin.new s pin).snd.mem pin = Mode.Output ∧
    specFselMode (OutputPin.drop (OutputPin.new s pin).fst (OutputPin.new s pin).snd).mem pin
      = Mode.Input ∧
    OutputPin.drop { (OutputPin.new s pin).fst with reset_on_drop := false }
        (OutputPin.new s pin).snd
      = (OutputPin.new s pin).snd ∧
    ((OutputPin.release (OutputPin.new s pin).fst (OutputPin.new s pin).snd g).snd).claimed
        pin
      = false ∧
    ((OutputPin.release { (OutputPin.new s pin).fst with reset_on_drop := false }
        (OutputPin.new s pin).snd g).snd).claimed pin = false := by
  have hne : (GpioMem.mode s pin).fst ≠ Mode.Output := by
    rw [h]
    decide
  have hnew : OutputPin.new s pin
      = ({ pin := pin, prev_mode := some Mode.Input, reset_on_drop := true },
         GpioMem.set_mode (GpioMem.mode s pin).snd pin Mode.Output) := by
    simp only [OutputPin.new]
    rw [if_neg hne, h]
  rw [hnew]
  refine ⟨rfl, rfl, set_mode_field _ pin Mode.Output, ?_, rfl, ?_, ?_⟩
  · simp only [OutputPin.drop, Bool.not_true, Bool.false_eq_true, if_false]
    exact set_mode_field _ pin Mode.Input
  · simp [OutputPin.release, Gpio.release]
  · simp [OutputPin.release, Gpio.release]

/-- Witness for C7 at the all-zero state, pin 3 and the empty registry. -/
theorem output_drop_restores_previous_mode_witness :
    specFselMode (OutputPin.drop
        (OutputPin.new (GpioState.initial fun _ => 0) 3).fst
        (OutputPin.new (GpioState.initial fun _ => 0) 3).snd).mem 3 = Mode.Input :=
  (output_drop_restores_previous_mode (GpioState.initial fun _ => 0) 3
      { claimed := fun _ => false } (by decide)).2.2.2.1

/-- C8 (refuted, code bug): `open` is claimed to surface a failed mapping call
as an error and a permission failure as the distinct `PermissionDenied`
variant. In an environment where the device file opens fine but `mmap` fails
(returns `MAP_FAILED`), `GpioMem::open` returns `Ok` with a `GpioMem` holding
the `MAP_FAILED` address, because the source never checks the mapping result;
and in an environment where the open fails with a permission error, the error
comes back as the generic `Error::Io` wrapper, never as
`Error::PermissionDenied`. -/
theorem open_unchecked_mmap_and_wrapped_permission_error :
    GpioMem.open' { openDevGpiomem := Except.ok 3,
                    mmapResult := fun _ _ _ => MAP_FAILED_ADDR,
                    lastOsError := IoErrorKind.other }
      = Except.ok { mem_ptr := MAP_FAILED_ADDR, soc := SoC.Bcm2711 } ∧
    GpioMem.open' { openDevGpiomem := Except.error IoErrorKind.permissionDenied,
                    mmapResult := fun _ _ _ => 0,
                    lastOsError := IoErrorKind.permissionDenied }
      = Except.error (GpioError.ioError IoErrorKind.permissionDenied) ∧
    (match GpioMem.open' { openDevGpiomem := Except.error IoErrorKind.permissionDenied,
                           mmapResult := fun _ _ _ => 0,
                           lastOsError := IoErrorKind.permissionDenied } with
     | Except.error e => e.isPermissionDeniedVariant
     | Except.ok _ => true) = false :=
  ⟨rfl, rfl, rfl⟩

/-- C9: replaying `set_high(pin)` (resp. `set_low(pin)`) against the hardware
model of the set/clear/level banks drives pin `pin`'s level to High (resp.
Low), as observed through `level`, which decodes bit `pin % 32` of level-bank
word `GPLEV0 + pin/32`; the level of any other in-range pin is unchanged.
(`level` and the bank behaviour are modelled from the spec; `set_high` and
`set_low` are the source's.) -/
theorem level_follows_set_high_set_low (d : Device) (mem : Nat → Nat) (pin q : Nat)
    (hp : pin < MAX) (hq : q < MAX) (hne : q ≠ pin) :
    (Device.run d (GpioMem.set_high (GpioState.initial mem) pin).trace).level pin
      = Level.High ∧
    (Device.run d (GpioMem.set_low (GpioState.initial mem) pin).trace).level pin
      = Level.Low ∧
    (Device.run d (GpioMem.set_high (GpioState.initial mem) pin).trace).level q = d.level q ∧
    (Device.run d (GpioMem.set_low (GpioState.initial mem) pin).trace).level q = d.level q := by
  have hp64 : pin < 64 := by simp only [MAX] at hp; omega
  have hq64 : q < 64 := by simp only [MAX] at hq; omega
  have hrunH : Device.run d (GpioMem.set_high (GpioState.initial mem) pin).trace
      = Device.writeWord d (GPSET0 + pin / 32) (1 <<< (pin % 32)) := rfl
  have hrunL : Device.run d (GpioMem.set_low (GpioState.initial mem) pin).trace
      = Device.writeWord d (GPCLR0 + pin / 32) (1 <<< (pin % 32)) := rfl
  refine ⟨?_, ?_, ?_, ?_⟩
  · rw [hrunH, Device.level_eq _ pin hp64, Device.writeWord_gpset_levels d pin hp64]
    simp
  · rw [hrunL, Device.level_eq _ pin hp64, Device.writeWord_gpclr_levels d pin hp64]
    simp
  · rw [hrunH, Device.level_eq _ q hq64, Device.writeWord_gpset_levels d pin hp64,
        Device.level_eq d q hq64]
    simp [hne]
  · rw [hrunL, Device.level_eq _ q hq64, Device.writeWord_gpclr_levels d pin hp64,
        Device.level_eq d q hq64]
    simp [hne]

/-- Witness for C9: the spec's end-to-end pin, 27, with neighbour pin 5, on a
device with all levels low. -/
theorem level_follows_set_high_set_low_witness :
    (Device.run { fselWords := fun _ => 0, levels := fun _ => false }
        (GpioMem.set_high (GpioState.initial fun _ => 0) 27).trace).level 27 = Level.High :=
  (level_follows_set_high_set_low { fselWords := fun _ => 0, levels := fun _ => false }
      (fun _ => 0) 27 5 (by decide) (by decide) (by decide)).1

/-- C10: for every 8-bit pin value, the word offsets of every volatile access
performed by `mode`, `set_mode`, `set_high` and `set_low` stay strictly inside
the 58-word mapped window: `mode` and `set_mode` read word 0 and `set_mode`
writes word `pin/10 ≤ 25`; `set_high` writes word `GPSET0 + pin/32 ≤ 14`;
`set_low` writes word `GPCLR0 + pin/32 ≤ 17`. -/
theorem register_offsets_within_mapped_window (pin : Fin 256) (mem : Nat → Nat) (m : Mode) :
    ((GpioMem.mode (GpioState.initial mem) pin.val).snd.trace.map MemAccess.offset = [0] ∧
     (GpioMem.set_mode (GpioState.initial mem) pin.val m).trace.map MemAccess.offset
       = [0, pin.val / 10] ∧
     (GpioMem.set_high (GpioState.initial mem) pin.val).trace.map MemAccess.offset
       = [GPSET0 + pin.val / 32] ∧
     (GpioMem.set_low (GpioState.initial mem) pin.val).trace.map MemAccess.offset
       = [GPCLR0 + pin.val / 32]) ∧
    pin.val / 10 ≤ 25 ∧
    GPSET0 + pin.val / 32 ≤ 14 ∧
    GPCLR0 + pin.val / 32 ≤ 17 ∧
    pin.val / 10 < GPIO_MEM_REGISTERS ∧
    GPSET0 + pin.val / 32 < GPIO_MEM_REGISTERS ∧
    GPCLR0 + pin.val / 32 < GPIO_MEM_REGISTERS ∧
    (0 : Nat) < GPIO_MEM_REGISTERS := by
  have hlt : pin.val < 256 := pin.isLt
  refine ⟨⟨rfl, rfl, rfl, rfl⟩, ?_, ?_, ?_, ?_, ?_, ?_, ?_⟩ <;>
    (try simp only [GPSET0, GPCLR0, GPIO_MEM_REGISTERS]) <;> omega
